import Mathlib

/-!
Shallow embedding of `src/app.py` (patchyevolve/valet), the Valentine's Day
Flask application: the `ValentineState` tracker (lines 42-101) and the HTTP
handlers `transition_state` (156-175), `record_choice` (177-212),
`health_check` (214-237), `serve_video` (239-263) and `index` (128-154).

Python dynamic values that reach the tracker and the choice handler are
modelled by `PyVal` (the JSON scalars the endpoints see: strings, numbers,
booleans and `None`); Python truthiness by `truthy`. The `user_choices`
dict is an association list with overwrite-on-repeat-key insertion
(`dictInsert`). Filesystem facts (existence of the template, the static
root, the video asset) are passed in explicitly, and for `serve_video`
paths are lists of components resolved by `resolvePath`, mirroring
`pathlib.Path.resolve`, with the guard's `str(...).startswith(...)` check
modelled by `startswith` on the rendered path strings.

Exception flow matters for `serve_video`: `flask.abort` raises an
`HTTPException`, which is an `Exception`, so the handler's own
`except Exception` catches the `abort(403)` / `abort(404)` raised inside
the `try` block and converts them to `abort(500)`. The body is therefore
embedded as an `Except` value (`serve_video_try`) and the handler folds
every error into status 500.
-/

namespace Valet

/-- Dynamic Python/JSON scalar values as seen by the tracker and handlers. -/
inductive PyVal where
  | str (s : String)
  | int (n : Int)
  | bool (b : Bool)
  | none
deriving DecidableEq, Repr

/-- Python truthiness (`bool(x)`) on `PyVal`: empty string, zero, `False`
and `None` are falsy. -/
def truthy : PyVal → Bool
  | .str s => s != ""
  | .int n => n != 0
  | .bool b => b
  | .none => false

/-- Insertion into a Python dict modelled as an association list:
`d[k] = v` overwrites the entry for `k` if present, else appends. -/
def dictInsert (d : List (String × PyVal)) (k : String) (v : PyVal) :
    List (String × PyVal) :=
  match d with
  | [] => [(k, v)]
  | (k', v') :: rest =>
    if k' = k then (k, v) :: rest else (k', v') :: dictInsert rest k v

/-- The state tracker `ValentineState` (app.py lines 42-101): the fixed
label list, the current state label, and the recorded choices. -/
structure ValentineState where
  states : List String
  current_state : String
  user_choices : List (String × PyVal)
deriving DecidableEq, Repr

/-- The fixed 10-label set from `ValentineState.__init__` (lines 46-57). -/
def fixedStates : List String :=
  ["loading",
   "ambient_idle",
   "intro_text",
   "presence_acknowledgement",
   "distance_visualization",
   "personal_memory",
   "valentine_question",
   "decision_state",
   "confirmation_state",
   "gentle_exit_state"]

/-- `ValentineState.__init__` (lines 45-60): state list fixed,
`current_state = 'loading'`, empty choices dict. -/
def ValentineState.init : ValentineState :=
  { states := fixedStates, current_state := "loading", user_choices := [] }

/-- `validate_state` (lines 62-72): false for non-string input, else
membership in `self.states`. -/
def ValentineState.validate_state (st : ValentineState) (state : PyVal) : Bool :=
  match state with
  | .str s => st.states.contains s
  | _ => false

/-- `transition_to` (lines 74-87): invalid label raises, which the local
`except` turns into `return False` with the state untouched; a valid label
overwrites `current_state` unconditionally and returns `True`. The inner
wildcard arm is unreachable because `validate_state` only accepts strings. -/
def ValentineState.transition_to (st : ValentineState) (new_state : PyVal) :
    Bool × ValentineState :=
  if st.validate_state new_state then
    match new_state with
    | .str s => (true, { st with current_state := s })
    | _ => (false, st)
  else
    (false, st)

/-- `record_choice` (lines 89-101): raises (hence returns `False`,
choices untouched) when `choice_type` fails `isinstance(·, str)` or
`choice_value` is falsy; otherwise `self.user_choices[choice_type] =
choice_value` and returns `True`. Note `isinstance('', str)` is `True`. -/
def ValentineState.record_choice (st : ValentineState)
    (choice_type choice_value : PyVal) : Bool × ValentineState :=
  match choice_type with
  | .str s =>
    if truthy choice_value then
      (true, { st with user_choices := dictInsert st.user_choices s choice_value })
    else
      (false, st)
  | _ => (false, st)

/-- Response of the `/api/state/<state_name>` endpoint: HTTP status,
`success` flag, and the reported `current_state` when present. -/
structure StateResponse where
  status : Nat
  success : Bool
  current_state : Option String
deriving DecidableEq, Repr

/-- Handler `transition_state` (lines 156-175): 400 if the label fails
validation, 500 if `transition_to` then returns `False`, else 200 with the
new current state. -/
def transition_state (st : ValentineState) (state_name : String) :
    StateResponse × ValentineState :=
  if ¬ st.validate_state (PyVal.str state_name) then
    ({ status := 400, success := false, current_state := Option.none }, st)
  else
    match st.transition_to (PyVal.str state_name) with
    | (false, st1) =>
      ({ status := 500, success := false, current_state := Option.none }, st1)
    | (true, st1) =>
      ({ status := 200, success := true, current_state := some st1.current_state }, st1)

/-- Response of the `/api/choice` endpoint: HTTP status, `success` flag,
and the optional `next_state` / `message` fields. -/
structure ChoiceResponse where
  status : Nat
  success : Bool
  next_state : Option String
  message : Option String
deriving DecidableEq, Repr

/-- Handler `record_choice` (lines 177-212). The JSON body is `none` when
absent/unparsable and otherwise a dict; a falsy (empty) dict also takes
the 400 branch, as do a falsy `type` or `value` field (`dict.get` yields
`None` for a missing key). A `False` from the tracker's `record_choice`
yields 500. On success, `type == 'valentine_response'` triggers the
special-case transitions for `'yes'` and for `'maybe'`/`'friends'`. -/
def record_choice (st : ValentineState)
    (data : Option (List (String × PyVal))) : ChoiceResponse × ValentineState :=
  match data with
  | Option.none =>
    ({ status := 400, success := false, next_state := Option.none,
       message := Option.none }, st)
  | some d =>
    if d = [] then
      ({ status := 400, success := false, next_state := Option.none,
         message := Option.none }, st)
    else
      let choice_type := (List.lookup "type" d).getD PyVal.none
      let choice_value := (List.lookup "value" d).getD PyVal.none
      if ¬ truthy choice_type ∨ ¬ truthy choice_value then
        ({ status := 400, success := false, next_state := Option.none,
           message := Option.none }, st)
      else
        match st.record_choice choice_type choice_value with
        | (false, st1) =>
          ({ status := 500, success := false, next_state := Option.none,
             message := Option.none }, st1)
        | (true, st1) =>
          if choice_type = PyVal.str "valentine_response" then
            if choice_value = PyVal.str "yes" then
              ({ status := 200, success := true,
                 next_state := some "confirmation_state",
                 message := some "Love is in the air! 💕" },
               (st1.transition_to (PyVal.str "confirmation_state")).2)
            else if choice_value = PyVal.str "maybe" ∨
                choice_value = PyVal.str "friends" then
              ({ status := 200, success := true,
                 next_state := some "gentle_exit_state",
                 message := some "Your feelings are valid ❤️" },
               (st1.transition_to (PyVal.str "gentle_exit_state")).2)
            else
              ({ status := 200, success := true, next_state := Option.none,
                 message := Option.none }, st1)
          else
            ({ status := 200, success := true, next_state := Option.none,
               message := Option.none }, st1)

/-- Results of the filesystem existence probes the handlers perform
(`Path(...).exists()` on the template, the static root, the video asset). -/
structure FsProbe where
  template_exists : Bool
  static_dir_exists : Bool
  video_exists : Bool
deriving DecidableEq, Repr

/-- The `checks` dict assembled by the health endpoint (lines 219-225). -/
structure HealthChecks where
  template_exists : Bool
  static_dir_exists : Bool
  video_exists : Bool
  current_state : String
  state_valid : Bool
deriving DecidableEq, Repr

/-- Handler `health_check` (lines 214-237): builds `checks` and reports
`'healthy'` when template existence, static-root existence and
state validity all hold, else `'degraded'`; `video_exists` is recorded in
`checks` but excluded from `all_good`. -/
def health_check (fs : FsProbe) (st : ValentineState) : String × HealthChecks :=
  let checks : HealthChecks :=
    { template_exists := fs.template_exists,
      static_dir_exists := fs.static_dir_exists,
      video_exists := fs.video_exists,
      current_state := st.current_state,
      state_valid := st.validate_state (PyVal.str st.current_state) }
  let all_good := checks.template_exists && checks.static_dir_exists && checks.state_valid
  ((if all_good then "healthy" else "degraded"), checks)

/-- Handler `index` (lines 128-154): resets the tracker to `'loading'`
via `transition_to`, then 500 if the template is missing, else 200. -/
def index (fs : FsProbe) (st : ValentineState) : Nat × ValentineState :=
  let st1 := (st.transition_to (PyVal.str "loading")).2
  if ¬ fs.template_exists then (500, st1) else (200, st1)

/-- Splits a string on `'/'` into path components, as `pathlib` does when
joining and rendering paths. -/
def splitSlash (s : String) : List String :=
  go [] s.data
where
  go (acc : List Char) : List Char → List String
    | [] => [String.mk acc.reverse]
    | c :: cs =>
      if c = '/' then String.mk acc.reverse :: go [] cs else go (c :: acc) cs

/-- `Path.resolve()` on a component list: drops empty and `'.'`
components and lets `'..'` pop the last kept component. -/
def resolvePath (acc : List String) : List String → List String
  | [] => acc
  | c :: cs =>
    if c = "" ∨ c = "." then resolvePath acc cs
    else if c = ".." then resolvePath acc.dropLast cs
    else resolvePath (acc ++ [c]) cs

/-- Renders an absolute path from its components, as `str(Path(...))`
does: `/` followed by the components joined with `/`. -/
def pathString (p : List String) : String :=
  p.foldl (fun acc c => acc ++ "/" ++ c) ""

/-- Python `s.startswith(p)` on strings, character by character. -/
def startswith (s p : String) : Bool :=
  p.data.isPrefixOf s.data

/-- The `try` body of `serve_video` (lines 242-259): resolve
`static/videos / filename` against the working directory `cwd`, run the
`startswith` traversal guard (`abort(403)`), the existence check
(`abort(404)`), and otherwise hand the resolved path to
`send_from_directory`. A leading `/` in `filename` makes the `pathlib`
join discard the directory part, as `Path.__truediv__` does. -/
def serve_video_try (cwd : List String) (exists_at : List String → Bool)
    (filename : String) : Except Nat (List String) :=
  let video_dir := resolvePath [] (cwd ++ ["static", "videos"])
  let parts := splitSlash filename
  let joined :=
    if filename.data.head? = some '/' then parts
    else cwd ++ ["static", "videos"] ++ parts
  let video_path := resolvePath [] joined
  if ¬ startswith (pathString video_path) (pathString video_dir) then
    Except.error 403
  else if ¬ exists_at video_path then
    Except.error 404
  else
    Except.ok video_path

/-- Handler `serve_video` (lines 239-263): the surrounding
`except Exception` catches the `HTTPException` raised by any `abort`
inside the `try` block and replaces it with `abort(500)`, so every error
branch surfaces as status 500; a successful body streams the file
(status 200, second component holds the path served). -/
def serve_video (cwd : List String) (exists_at : List String → Bool)
    (filename : String) : Nat × Option (List String) :=
  match serve_video_try cwd exists_at filename with
  | Except.error _ => (500, Option.none)
  | Except.ok p => (200, some p)

/-! Lookup lemmas for the choices dict. -/

theorem lookup_dictInsert_self (d : List (String × PyVal)) (k : String) (v : PyVal) :
    List.lookup k (dictInsert d k v) = some v := by
  induction d with
  | nil => simp [dictInsert, List.lookup]
  | cons p rest ih =>
    obtain ⟨k', v'⟩ := p
    by_cases h : k' = k
    · subst h
      simp [dictInsert, List.lookup]
    · have hb : (k == k') = false := beq_eq_false_iff_ne.mpr (Ne.symm h)
      simp [dictInsert, h, List.lookup, hb, ih]

theorem lookup_dictInsert_ne (d : List (String × PyVal)) (k k' : String) (v : PyVal)
    (h : k' ≠ k) : List.lookup k' (dictInsert d k v) = List.lookup k' d := by
  induction d with
  | nil =>
    have hb : (k' == k) = false := beq_eq_false_iff_ne.mpr h
    simp [dictInsert, List.lookup, hb]
  | cons p rest ih =>
    obtain ⟨k0, v0⟩ := p
    by_cases h0 : k0 = k
    · subst h0
      have hb : (k' == k0) = false := beq_eq_false_iff_ne.mpr h
      simp [dictInsert, List.lookup, hb]
    · simp [dictInsert, h0, List.lookup, ih]

/-- C1 (amended): `record_choice(type, value)` returns false exactly when
`type` is not a string (the `isinstance` check, which accepts the empty
string) or `value` is falsy/empty, and in that case leaves the state
untouched; when `type` is any string and `value` is truthy it sets
`choices[type] = value` (inserting or overwriting that key), leaves every
other key and the rest of the state unchanged, and returns true. -/
theorem record_choice_spec (st : ValentineState) (t v : PyVal) :
    ((∀ s, t ≠ PyVal.str s) ∨ truthy v = false →
      st.record_choice t v = (false, st)) ∧
    (∀ s, t = PyVal.str s → truthy v = true →
      (st.record_choice t v).1 = true ∧
      List.lookup s (st.record_choice t v).2.user_choices = some v ∧
      (∀ k, k ≠ s →
        List.lookup k (st.record_choice t v).2.user_choices =
          List.lookup k st.user_choices) ∧
      (st.record_choice t v).2.current_state = st.current_state ∧
      (st.record_choice t v).2.states = st.states) := by
  constructor
  · rintro (h | h)
    · cases t with
      | str s => exact absurd rfl (h s)
      | int n => rfl
      | bool b => rfl
      | none => rfl
    · cases t <;> simp [ValentineState.record_choice, h]
  · rintro s rfl hv
    refine ⟨?_, ?_, ?_, ?_, ?_⟩
    · simp [ValentineState.record_choice, hv]
    · simp [ValentineState.record_choice, hv, lookup_dictInsert_self]
    · intro k hk
      simp only [ValentineState.record_choice, hv, if_pos]
      exact lookup_dictInsert_ne _ _ _ _ hk
    · simp [ValentineState.record_choice, hv]
    · simp [ValentineState.record_choice, hv]

/-- C1 counterexample: the claim as stated requires `record_choice` to
return false when `type` is not a NON-EMPTY string, but the code's
`isinstance(choice_type, str)` check accepts the empty string: with
`type = ""` and a truthy value the call returns true and inserts the
entry. -/
theorem record_choice_empty_type_counterexample :
    (ValentineState.init.record_choice (PyVal.str "") (PyVal.str "yes")).1 = true ∧
    List.lookup "" (ValentineState.init.record_choice (PyVal.str "")
      (PyVal.str "yes")).2.user_choices = some (PyVal.str "yes") := by
  decide

/-- C1 witness: the amended theorem applied at concrete inputs. -/
theorem record_choice_spec_witness :
    ValentineState.init.record_choice (PyVal.int 3) (PyVal.str "x") =
      (false, ValentineState.init) ∧
    (ValentineState.init.record_choice (PyVal.str "color") (PyVal.str "red")).1 = true :=
  ⟨(record_choice_spec ValentineState.init (PyVal.int 3) (PyVal.str "x")).1
      (Or.inl fun _ h => PyVal.noConfusion h),
   ((record_choice_spec ValentineState.init (PyVal.str "color") (PyVal.str "red")).2
      "color" rfl (by decide)).1⟩

/-- C2: an invalid label makes `transition_to` return false with the state
unchanged; a valid label is written to `current_state` unconditionally,
whatever the prior state, and true is returned, so reading the state
afterwards yields exactly that label. -/
theorem transition_to_spec (st : ValentineState) (L : PyVal) :
    (st.validate_state L = false → st.transition_to L = (false, st)) ∧
    (st.validate_state L = true →
      (st.transition_to L).1 = true ∧
      ∀ s, L = PyVal.str s → (st.transition_to L).2.current_state = s) := by
  constructor
  · intro h
    simp [ValentineState.transition_to, h]
  · intro h
    cases L with
    | str s =>
      refine ⟨?_, ?_⟩
      · simp [ValentineState.transition_to, h]
      · rintro s' hs'
        cases hs'
        simp [ValentineState.transition_to, h]
    | int n => simp [ValentineState.validate_state] at h
    | bool b => simp [ValentineState.validate_state] at h
    | none => simp [ValentineState.validate_state] at h

/-- C2 witness: the theorem applied at a rejected and at an accepted
label. -/
theorem transition_to_spec_witness :
    ValentineState.init.transition_to (PyVal.str "nope") = (false, ValentineState.init) ∧
    (ValentineState.init.transition_to (PyVal.str "decision_state")).1 = true :=
  ⟨(transition_to_spec ValentineState.init (PyVal.str "nope")).1 (by decide),
   ((transition_to_spec ValentineState.init (PyVal.str "decision_state")).2 (by decide)).1⟩

/-- C3: `validate_state` accepts exactly the strings of the fixed
10-label set: it is true precisely when the input is a string belonging to
the set, hence false for every other string and for every non-string
value. -/
theorem validate_state_spec (st : ValentineState) (hst : st.states = fixedStates)
    (v : PyVal) :
    st.validate_state v = true ↔ ∃ s, v = PyVal.str s ∧ s ∈ fixedStates := by
  cases v with
  | str s => simp [ValentineState.validate_state, hst]
  | int n => simp [ValentineState.validate_state]
  | bool b => simp [ValentineState.validate_state]
  | none => simp [ValentineState.validate_state]

/-- C3 witness: the theorem applied at a member of the label set. -/
theorem validate_state_spec_witness :
    ValentineState.init.validate_state (PyVal.str "valentine_question") = true :=
  (validate_state_spec ValentineState.init rfl (PyVal.str "valentine_question")).mpr
    ⟨"valentine_question", rfl, by decide⟩

/-- C5: the health endpoint reports "healthy" iff the template exists,
the static root exists and the current state is a member of the valid
label set; in every other case it reports "degraded". The video asset's
existence never affects the status. -/
theorem health_check_spec (fs : FsProbe) (st : ValentineState)
    (hst : st.states = fixedStates) :
    ((health_check fs st).1 = "healthy" ↔
      fs.template_exists = true ∧ fs.static_dir_exists = true ∧
        st.current_state ∈ fixedStates) ∧
    ((health_check fs st).1 = "healthy" ∨ (health_check fs st).1 = "degraded") ∧
    (∀ b, (health_check { fs with video_exists := b } st).1 =
      (health_check fs st).1) := by
  have hv : st.validate_state (PyVal.str st.current_state) = true ↔
      st.current_state ∈ fixedStates := by
    simp [ValentineState.validate_state, hst]
  by_cases hc : (fs.template_exists && fs.static_dir_exists &&
      st.validate_state (PyVal.str st.current_state)) = true
  · have h1 : (health_check fs st).1 = "healthy" := by
      simp [health_check, hc]
    have h2 : ∀ b, (health_check { fs with video_exists := b } st).1 = "healthy" := by
      intro b
      simp [health_check, hc]
    rw [h1]
    simp only [Bool.and_eq_true] at hc
    refine ⟨?_, Or.inl rfl, ?_⟩
    · simp [hc.1.1, hc.1.2, hv.mp hc.2]
    · intro b
      rw [h2 b]
  · have hc' : (fs.template_exists && fs.static_dir_exists &&
        st.validate_state (PyVal.str st.current_state)) = false := by
      simpa using hc
    have h1 : (health_check fs st).1 = "degraded" := by
      simp [health_check, hc']
    have h2 : ∀ b, (health_check { fs with video_exists := b } st).1 = "degraded" := by
      intro b
      simp [health_check, hc']
    rw [h1]
    refine ⟨?_, Or.inr rfl, ?_⟩
    · constructor
      · intro h
        exact absurd h (by decide)
      · rintro ⟨ha, hb2, hm⟩
        rw [ha, hb2, hv.mpr hm] at hc'
        simp at hc'
    · intro b
      rw [h2 b]

/-- C5 witness: the theorem applied with both required files present and
the initial (valid) state. -/
theorem health_check_spec_witness :
    (health_check ⟨true, true, false⟩ ValentineState.init).1 = "healthy" :=
  (health_check_spec ⟨true, true, false⟩ ValentineState.init rfl).1.mpr
    ⟨rfl, rfl, by decide⟩

/-- C6: once a label passes `validate_state`, `transition_to` returns
true, so the 500 branch of the `/api/state/<label>` handler ("State
transition failed") is dead code: the endpoint never answers 500. -/
theorem transition_dead_branch (st : ValentineState) (state_name : String) :
    (st.validate_state (PyVal.str state_name) = true →
      (st.transition_to (PyVal.str state_name)).1 = true) ∧
    (transition_state st state_name).1.status ≠ 500 := by
  constructor
  · intro h
    simp [ValentineState.transition_to, h]
  · cases h : st.validate_state (PyVal.str state_name) with
    | false => simp [transition_state, h]
    | true => simp [transition_state, h, ValentineState.transition_to]

/-- C6 witness: the theorem applied at a valid label. -/
theorem transition_dead_branch_witness :
    (ValentineState.init.transition_to (PyVal.str "ambient_idle")).1 = true ∧
    (transition_state ValentineState.init "ambient_idle").1.status ≠ 500 :=
  ⟨(transition_dead_branch ValentineState.init "ambient_idle").1 (by decide),
   (transition_dead_branch ValentineState.init "ambient_idle").2⟩

/-- C9: frame property of the tracker operations: `record_choice` never
changes `current_state` (or the label list), and `transition_to` never
changes the choices dict (or the label list); `validate_state` returns a
Bool and touches no state at all in the embedding, mirroring that the
Python method only reads. The valentine-response transitions therefore
come from the handler calling `transition_to`, not from `record_choice`. -/
theorem tracker_frame (st : ValentineState) (t v L : PyVal) :
    (st.record_choice t v).2.current_state = st.current_state ∧
    (st.record_choice t v).2.states = st.states ∧
    (st.transition_to L).2.user_choices = st.user_choices ∧
    (st.transition_to L).2.states = st.states := by
  refine ⟨?_, ?_, ?_, ?_⟩
  · cases t with
    | str s => by_cases hv : truthy v = true <;> simp [ValentineState.record_choice, hv]
    | int n => rfl
    | bool b => rfl
    | none => rfl
  · cases t with
    | str s => by_cases hv : truthy v = true <;> simp [ValentineState.record_choice, hv]
    | int n => rfl
    | bool b => rfl
    | none => rfl
  · cases hb : st.validate_state L with
    | false => simp [ValentineState.transition_to, hb]
    | true =>
      cases L with
      | str s => simp [ValentineState.transition_to, hb]
      | int n => simp [ValentineState.validate_state] at hb
      | bool b => simp [ValentineState.validate_state] at hb
      | none => simp [ValentineState.validate_state] at hb
  · cases hb : st.validate_state L with
    | false => simp [ValentineState.transition_to, hb]
    | true =>
      cases L with
      | str s => simp [ValentineState.transition_to, hb]
      | int n => simp [ValentineState.validate_state] at hb
      | bool b => simp [ValentineState.validate_state] at hb
      | none => simp [ValentineState.validate_state] at hb

/-- C10: the choice endpoint's 500 branch is reachable, unlike the
state endpoint's: a body whose `type` is a truthy non-string (a number)
and whose `value` is truthy passes the presence check (no 400), but the
tracker's `isinstance` check makes `record_choice` return false, so the
endpoint answers 500. -/
theorem choice_route_500_reachable :
    (record_choice ValentineState.init
      (some [("type", PyVal.int 1), ("value", PyVal.str "x")])).1.status = 500 ∧
    (ValentineState.init.record_choice (PyVal.int 1) (PyVal.str "x")).1 = false := by
  decide

/-- C4: when the choice endpoint successfully records a choice of type
"valentine_response": value "yes" leaves the tracker in
`confirmation_state` and the response carries the success message;
"maybe" or "friends" leave it in `gentle_exit_state` with the other
message; any other value triggers no extra transition, so
`current_state` is unchanged. -/
theorem choice_route_valentine (st : ValentineState) (hst : st.states = fixedStates)
    (d : List (String × PyVal)) (v : PyVal)
    (ht : List.lookup "type" d = some (PyVal.str "valentine_response"))
    (hv : List.lookup "value" d = some v)
    (hvt : truthy v = true) :
    (v = PyVal.str "yes" →
      (record_choice st (some d)).2.current_state = "confirmation_state" ∧
      (record_choice st (some d)).1.message = some "Love is in the air! 💕" ∧
      (record_choice st (some d)).1.status = 200) ∧
    ((v = PyVal.str "maybe" ∨ v = PyVal.str "friends") →
      (record_choice st (some d)).2.current_state = "gentle_exit_state" ∧
      (record_choice st (some d)).1.message = some "Your feelings are valid ❤️" ∧
      (record_choice st (some d)).1.status = 200) ∧
    (v ≠ PyVal.str "yes" → v ≠ PyVal.str "maybe" → v ≠ PyVal.str "friends" →
      (record_choice st (some d)).2.current_state = st.current_state) := by
  have hd : d ≠ [] := by
    intro h
    rw [h] at ht
    simp [List.lookup] at ht
  have htv : truthy (PyVal.str "valentine_response") = true := by decide
  have hyes : truthy (PyVal.str "yes") = true := by decide
  have hmay : truthy (PyVal.str "maybe") = true := by decide
  have hfr : truthy (PyVal.str "friends") = true := by decide
  have hccm : "confirmation_state" ∈ fixedStates := by decide
  have hgcm : "gentle_exit_state" ∈ fixedStates := by decide
  refine ⟨?_, ?_, ?_⟩
  · rintro rfl
    simp [record_choice, hd, ht, hv, ValentineState.record_choice,
      ValentineState.transition_to, ValentineState.validate_state, hst,
      htv, hyes, hccm]
  · rintro (rfl | rfl) <;>
      simp [record_choice, hd, ht, hv, ValentineState.record_choice,
        ValentineState.transition_to, ValentineState.validate_state, hst,
        htv, hmay, hfr, hgcm]
  · intro h1 h2 h3
    simp [record_choice, hd, ht, hv, hvt, h1, h2, h3, htv,
      ValentineState.record_choice]

/-- C4 witness: the theorem applied to a concrete "yes" body. -/
theorem choice_route_valentine_witness :
    (record_choice ValentineState.init
        (some [("type", PyVal.str "valentine_response"),
               ("value", PyVal.str "yes")])).2.current_state = "confirmation_state" :=
  ((choice_route_valentine ValentineState.init rfl
      [("type", PyVal.str "valentine_response"), ("value", PyVal.str "yes")]
      (PyVal.str "yes") (by decide) (by decide) (by decide)).1 rfl).1

/-- C7: evaluation at the failing input. The claim requires a
directory-traversal filename to get HTTP 403 and an absent in-directory
file to get 404, but the handler answers 500 in both cases: `abort(403)`
and `abort(404)` raise `HTTPException`s, which the handler's own
`except Exception` swallows and replaces by `abort(500)`. For filename
".." under working directory `/app` the resolved path `/app/static`
escapes `/app/static/videos` (third conjunct), the body takes the
403 branch (second conjunct), yet the endpoint's response is 500 with no
file contents; for the absent in-directory file "ghost.mp4" the body
takes the 404 branch and the response is again 500. -/
theorem serve_video_status_eval :
    serve_video ["app"] (fun _ => false) ".." = (500, Option.none) ∧
    serve_video_try ["app"] (fun _ => false) ".." = Except.error 403 ∧
    startswith (pathString (resolvePath [] ["app", "static", "videos", ".."]))
      (pathString (resolvePath [] ["app", "static", "videos"])) = false ∧
    serve_video ["app"] (fun _ => false) "ghost.mp4" = (500, Option.none) ∧
    serve_video_try ["app"] (fun _ => false) "ghost.mp4" = Except.error 404 :=
  ⟨by decide, by rfl, by decide, by decide, by rfl⟩

/-- The C8 invariant: the label list is the fixed one and the current
state is one of its members. -/
def StateInv (st : ValentineState) : Prop :=
  st.states = fixedStates ∧ st.current_state ∈ fixedStates

theorem StateInv_transition_to (st : ValentineState) (L : PyVal)
    (h : StateInv st) : StateInv (st.transition_to L).2 := by
  cases hb : st.validate_state L with
  | false => simpa [ValentineState.transition_to, hb] using h
  | true =>
    cases L with
    | str s =>
      have hmem : s ∈ fixedStates := by
        have hb' := hb
        simp [ValentineState.validate_state, h.1] at hb'
        exact hb'
      exact ⟨by simp [ValentineState.transition_to, hb, h.1],
             by simpa [ValentineState.transition_to, hb] using hmem⟩
    | int n => simp [ValentineState.validate_state] at hb
    | bool b => simp [ValentineState.validate_state] at hb
    | none => simp [ValentineState.validate_state] at hb

theorem StateInv_record_choice (st : ValentineState) (t v : PyVal)
    (h : StateInv st) : StateInv (st.record_choice t v).2 := by
  cases t with
  | str s =>
    by_cases hv : truthy v = true <;>
      simpa [ValentineState.record_choice, hv] using h
  | int n => exact h
  | bool b => exact h
  | none => exact h

theorem transition_state_snd (st : ValentineState) (s : String) :
    (transition_state st s).2 = (st.transition_to (PyVal.str s)).2 := by
  cases hb : st.validate_state (PyVal.str s) with
  | false => simp [transition_state, hb, ValentineState.transition_to]
  | true => simp [transition_state, hb, ValentineState.transition_to]

theorem StateInv_record_choice_route (st : ValentineState)
    (data : Option (List (String × PyVal))) (h : StateInv st) :
    StateInv (record_choice st data).2 := by
  cases data with
  | none => exact h
  | some d =>
    simp only [record_choice]
    split
    · exact h
    · split
      · exact h
      · split
        · rename_i st1 heq
          have h1 := StateInv_record_choice st
            ((List.lookup "type" d).getD PyVal.none)
            ((List.lookup "value" d).getD PyVal.none) h
          rw [heq] at h1
          exact h1
        · rename_i st1 heq
          have h1 : StateInv st1 := by
            have h2 := StateInv_record_choice st
              ((List.lookup "type" d).getD PyVal.none)
              ((List.lookup "value" d).getD PyVal.none) h
            rw [heq] at h2
            exact h2
          split
          · split
            · exact StateInv_transition_to st1 (PyVal.str "confirmation_state") h1
            · split
              · exact StateInv_transition_to st1 (PyVal.str "gentle_exit_state") h1
              · exact h1
          · exact h1

theorem index_snd (fs : FsProbe) (st : ValentineState) :
    (index fs st).2 = (st.transition_to (PyVal.str "loading")).2 := by
  cases htb : fs.template_exists <;> simp [index, htb]

/-- C8: `current_state` is always a member of the fixed 10-label set:
the invariant holds of the initial state and is preserved by both tracker
mutators and by every handler that writes the state (the state endpoint,
the choice endpoint, and the index reset). -/
theorem current_state_invariant :
    StateInv ValentineState.init ∧
    (∀ st L, StateInv st → StateInv (st.transition_to L).2) ∧
    (∀ st t v, StateInv st → StateInv (st.record_choice t v).2) ∧
    (∀ st s, StateInv st → StateInv (transition_state st s).2) ∧
    (∀ st data, StateInv st → StateInv (record_choice st data).2) ∧
    (∀ st fs, StateInv st → StateInv (index fs st).2) :=
  ⟨⟨rfl, by decide⟩,
   fun st L h => StateInv_transition_to st L h,
   fun st t v h => StateInv_record_choice st t v h,
   fun st s h => by
     rw [transition_state_snd]
     exact StateInv_transition_to st (PyVal.str s) h,
   fun st data h => StateInv_record_choice_route st data h,
   fun st fs h => by
     rw [index_snd]
     exact StateInv_transition_to st (PyVal.str "loading") h⟩

/-- C8 witness: the preservation clauses applied to the initial state and
a concrete transition. -/
theorem current_state_invariant_witness :
    StateInv (ValentineState.init.transition_to (PyVal.str "personal_memory")).2 :=
  current_state_invariant.2.1 ValentineState.init (PyVal.str "personal_memory")
    current_state_invariant.1

end Valet
